import Mathlib

/-!
# Verification of the noah semantic-search engine

Shallow embedding of the Rust sources of `chakanysystems/noah`:

* `src/discovery/search.rs` — `search_events`: dynamic SQL construction for the
  ranked-results query and the count query (the copies in `src/main.rs` and
  `src/search.rs` are textually identical except that they write the distance
  operator as `<->` where `discovery/search.rs` writes `<=>`; the WHERE-clause
  construction is the same in all three).
* `src/discovery/embedding.rs` — `cloudflare::generate_embedding`: the
  embedding client.
* `src/main.rs` — `process_stdin_events`: the ingestion pipeline.

Modelling conventions: `f32`/`f64` scalars are opaque to every property proved
here (no arithmetic is ever performed on them), so they are carried as `Int`;
`serde_json::Value` payloads are opaque documents carried as a wrapped string;
the sqlx `QueryBuilder` is a pair of the SQL text built so far and the list of
bound parameters, with `push_bind` appending a `$n` placeholder exactly as the
Postgres sqlx backend does; external effects (the store, the embedding HTTP
call, line parsing) are inputs to the embedded functions, and the observable
actions of the ingestion loop are collected in an explicit trace.
-/

/-- `serde_json::Value` treated as an opaque document: no verified property
inspects its structure (the `@>` containment test happens inside Postgres). -/
structure JsonValue where
  raw : String
deriving DecidableEq, Repr

/-- `f32` vector components are opaque to all properties proved here. -/
abbrev Embedding := List Int

/-- `NostrEvent` from `src/main.rs`. -/
structure NostrEvent where
  id : String
  pubkey : String
  created_at : Int
  kind : Int
  content : String
  tags : JsonValue
deriving DecidableEq, Repr

/-- `TagValueFilter` from `src/discovery/search.rs`. -/
structure TagValueFilter where
  key : String
  values : List String
deriving DecidableEq, Repr

/-- `TagFilters` from `src/discovery/search.rs`. -/
structure TagFilters where
  exact : Option JsonValue
  any : Option (List String)
  values : Option TagValueFilter
deriving DecidableEq, Repr

/-- `SearchFilters` from `src/discovery/search.rs`. -/
structure SearchFilters where
  pubkey : Option String
  kind : Option Int
  tags : Option TagFilters
deriving DecidableEq, Repr

/-- `SearchQuery` from `src/discovery/search.rs`. -/
structure SearchQuery where
  query : String
  limit : Option Int
  offset : Option Int
  filters : Option SearchFilters
deriving DecidableEq, Repr

/-- `EventWithSimilarity` from `src/discovery/search.rs`; the `f64`
similarity score is opaque here. -/
structure EventWithSimilarity where
  id : String
  pubkey : String
  created_at : Int
  kind : Int
  content : String
  tags : JsonValue
  similarity : Int
deriving DecidableEq, Repr

/-- `SearchResult` from `src/discovery/search.rs`. -/
structure SearchResult where
  results : List EventWithSimilarity
  total : Int
  limit : Int
  offset : Int
deriving DecidableEq, Repr

/-- A value handed to sqlx `push_bind`: it travels in the parameter list,
never in the SQL text. -/
inductive SqlParam where
  | vec (v : Embedding)
  | str (s : String)
  | int (n : Int)
  | json (j : JsonValue)
deriving DecidableEq, Repr

/-- The sqlx `QueryBuilder` state: SQL text so far plus bound parameters. -/
structure QB where
  sql : String
  params : List SqlParam
deriving DecidableEq, Repr

/-- `QueryBuilder::new(init)`. -/
def QB.new (init : String) : QB :=
  ⟨init, []⟩

/-- `QueryBuilder::push(s)`: append literal SQL text. -/
def QB.push (qb : QB) (s : String) : QB :=
  ⟨qb.sql ++ s, qb.params⟩

/-- `QueryBuilder::push_bind(p)`: the Postgres backend appends the placeholder
`$n` (n = number of arguments after adding) to the SQL and records the value. -/
def QB.push_bind (qb : QB) (p : SqlParam) : QB :=
  ⟨qb.sql ++ "$" ++ toString (qb.params.length + 1), qb.params ++ [p]⟩

/-- The ranked-results query of `search_events`
(`src/discovery/search.rs` lines 55–110), translated statement by statement;
the mutable `first_condition` flag becomes the `Bool` component threaded
through the filter section. -/
def buildRankedQuery (search_query : SearchQuery) (embedding : Embedding) : QB :=
  let limit := search_query.limit.getD 10
  let offset := search_query.offset.getD 0
  let qb := QB.new "SELECT id, pubkey, created_at, kind, content, tags, 1 - (embedding <=> "
  let qb := (qb.push_bind (SqlParam.vec embedding)).push ") as similarity FROM nostr_search.events"
  let qb :=
    match search_query.filters with
    | none => qb
    | some filters =>
      let st : QB × Bool := (qb, true)
      let st :=
        match filters.pubkey with
        | none => st
        | some pubkey => (((st.1.push " WHERE pubkey = ").push_bind (SqlParam.str pubkey)), false)
      let st :=
        match filters.kind with
        | none => st
        | some kind =>
          let qb1 := if st.2 then st.1.push " WHERE " else st.1.push " AND "
          (((qb1.push "kind = ").push_bind (SqlParam.int kind)), false)
      let st :=
        match filters.tags with
        | none => st
        | some tag_filters =>
          match tag_filters.exact with
          | none => st
          | some exact =>
            let qb1 := if st.2 then st.1.push " WHERE " else st.1.push " AND "
            (((qb1.push "tags @> ").push_bind (SqlParam.json exact)), st.2)
      st.1
  ((((qb.push " ORDER BY embedding <=> ").push_bind
      (SqlParam.vec embedding)).push " LIMIT ").push_bind
      (SqlParam.int limit)).push " OFFSET " |>.push_bind (SqlParam.int offset)

/-- The count query of `search_events` (`src/discovery/search.rs` lines
118–151): the source duplicates the filter-pushing code rather than sharing it
with the ranked query, so this definition repeats it as well; that the two
constructions agree is proved, not assumed. -/
def buildCountQuery (filters? : Option SearchFilters) : QB :=
  let count_qb := QB.new "SELECT COUNT(*) FROM nostr_search.events"
  match filters? with
  | none => count_qb
  | some filters =>
    let st : QB × Bool := (count_qb, true)
    let st :=
      match filters.pubkey with
      | none => st
      | some pubkey => (((st.1.push " WHERE pubkey = ").push_bind (SqlParam.str pubkey)), false)
    let st :=
      match filters.kind with
      | none => st
      | some kind =>
        let qb1 := if st.2 then st.1.push " WHERE " else st.1.push " AND "
        (((qb1.push "kind = ").push_bind (SqlParam.int kind)), false)
    let st :=
      match filters.tags with
      | none => st
      | some tag_filters =>
        match tag_filters.exact with
        | none => st
        | some exact =>
          let qb1 := if st.2 then st.1.push " WHERE " else st.1.push " AND "
          (((qb1.push "tags @> ").push_bind (SqlParam.json exact)), st.2)
    st.1

/-- The predicate fragments present in a filter set, in the fixed source
order pubkey, kind, tags-exact; an omitted filter contributes nothing. -/
def presentPredicates (filters? : Option SearchFilters) : List String :=
  match filters? with
  | none => []
  | some f =>
    (match f.pubkey with | some _ => ["pubkey = "] | none => []) ++
    (match f.kind with | some _ => ["kind = "] | none => []) ++
    (match f.tags with
     | some t => (match t.exact with | some _ => ["tags @> "] | none => [])
     | none => [])

/-- Append consecutive `$n` placeholders, starting at `start`, to a fragment
list. -/
def numberFrom (start : Nat) : List String → List String
  | [] => []
  | s :: rest => (s ++ "$" ++ toString start) :: numberFrom (start + 1) rest

/-- Join predicate fragments as the spec's composition rule dictates: the
first is preceded by `WHERE`, every later one by `AND`; an empty list yields
the empty string (no `WHERE` clause at all). -/
def joinWhere : List String → String
  | [] => ""
  | c :: cs => " WHERE " ++ c ++ String.join (cs.map (fun c2 => " AND " ++ c2))

/-- Which of the three optional filters are present (pubkey, kind,
tags-exact). -/
def presenceOf (filters? : Option SearchFilters) : Bool × Bool × Bool :=
  match filters? with
  | none => (false, false, false)
  | some f =>
    (f.pubkey.isSome, f.kind.isSome,
      match f.tags with | none => false | some t => t.exact.isSome)

/-- The bound parameter values a filter set contributes, in predicate order. -/
def filterParams (filters? : Option SearchFilters) : List SqlParam :=
  match filters? with
  | none => []
  | some f =>
    (match f.pubkey with | some pk => [SqlParam.str pk] | none => []) ++
    (match f.kind with | some k => [SqlParam.int k] | none => []) ++
    (match f.tags with
     | some t => (match t.exact with | some e => [SqlParam.json e] | none => [])
     | none => [])

/-- The fixed text preceding the WHERE clause in the ranked-results query. -/
def rankedPrefix : String :=
  "SELECT id, pubkey, created_at, kind, content, tags, 1 - (embedding <=> $1) as similarity FROM nostr_search.events"

/-- The ORDER BY / LIMIT / OFFSET tail of the ranked-results query; `n` is the
number of filter predicates present, so the vector, limit and offset
placeholders are `$2+n`, `$3+n`, `$4+n`. -/
def rankedTail (n : Nat) : String :=
  " ORDER BY embedding <=> $" ++ toString (2 + n) ++ " LIMIT $" ++ toString (3 + n) ++
    " OFFSET $" ++ toString (4 + n)

/-- The fixed text preceding the WHERE clause in the count query. -/
def countPrefix : String :=
  "SELECT COUNT(*) FROM nostr_search.events"

/-- `s` contains `sub` as a contiguous substring. -/
def containsSub (sub s : String) : Prop :=
  sub.toList <:+: s.toList

instance (sub s : String) : Decidable (containsSub sub s) :=
  List.decidableInfix sub.toList s.toList

/-- The predicate fragments determined by filter presence alone. -/
def predsOfPresence : Bool × Bool × Bool → List String
  | (b1, b2, b3) =>
    (if b1 then ["pubkey = "] else []) ++ (if b2 then ["kind = "] else []) ++
      (if b3 then ["tags @> "] else [])

/-- A search request answered against store and embedding-provider oracles;
the second component records, in order, the external calls performed. -/
inductive SearchOp where
  | embedCall (text : String)
  | storeQuery (qb : QB)
deriving DecidableEq, Repr

/-- The external collaborators of `search_events`: the embedding client and
the two store query surfaces (`fetch_all` for rows, `fetch_one` for the
count). -/
structure SearchOracle where
  embed : String → Except String Embedding
  fetchAll : QB → Except String (List EventWithSimilarity)
  fetchOne : QB → Except String Int

/-- `search_events` from `src/discovery/search.rs` lines 54–165: resolve
limit/offset defaults, obtain the query embedding (propagating failure with
`?` before any store access), run the ranked query, run the count query,
assemble the result. Each `?`-propagation is a `match` on the oracle answer. -/
def search_events (o : SearchOracle) (search_query : SearchQuery) :
    Except String SearchResult × List SearchOp :=
  match o.embed search_query.query with
  | .error e => (.error e, [SearchOp.embedCall search_query.query])
  | .ok embedding_vec =>
    match o.fetchAll (buildRankedQuery search_query embedding_vec) with
    | .error e =>
      (.error e,
        [SearchOp.embedCall search_query.query,
          SearchOp.storeQuery (buildRankedQuery search_query embedding_vec)])
    | .ok results =>
      match o.fetchOne (buildCountQuery search_query.filters) with
      | .error e =>
        (.error e,
          [SearchOp.embedCall search_query.query,
            SearchOp.storeQuery (buildRankedQuery search_query embedding_vec),
            SearchOp.storeQuery (buildCountQuery search_query.filters)])
      | .ok total =>
        (.ok ⟨results, total, search_query.limit.getD 10, search_query.offset.getD 0⟩,
          [SearchOp.embedCall search_query.query,
            SearchOp.storeQuery (buildRankedQuery search_query embedding_vec),
            SearchOp.storeQuery (buildCountQuery search_query.filters)])

set_option maxRecDepth 40000 in
lemma buildRanked_sql (q : SearchQuery) (emb : Embedding) :
    (buildRankedQuery q emb).sql =
      rankedPrefix ++ joinWhere (numberFrom 2 (presentPredicates q.filters)) ++
        rankedTail (presentPredicates q.filters).length := by
  rcases q with ⟨qs, lim, off, filters⟩
  rcases filters with _ | ⟨pk, kd, tg⟩
  · simp [buildRankedQuery, QB.new, QB.push, QB.push_bind, rankedPrefix, rankedTail,
      presentPredicates, numberFrom, joinWhere]
    decide
  rcases pk with _ | pk <;> rcases kd with _ | kd <;>
    rcases tg with _ | ⟨_ | ex, anyv, valsv⟩ <;>
    (simp [buildRankedQuery, QB.new, QB.push, QB.push_bind, rankedPrefix, rankedTail,
      presentPredicates, numberFrom, joinWhere]; decide)

set_option maxRecDepth 40000 in
lemma buildCount_sql (f : Option SearchFilters) :
    (buildCountQuery f).sql = countPrefix ++ joinWhere (numberFrom 1 (presentPredicates f)) := by
  rcases f with _ | ⟨pk, kd, tg⟩
  · simp [buildCountQuery, QB.new, QB.push, QB.push_bind, countPrefix,
      presentPredicates, numberFrom, joinWhere]
  rcases pk with _ | pk <;> rcases kd with _ | kd <;>
    rcases tg with _ | ⟨_ | ex, anyv, valsv⟩ <;>
    (simp [buildCountQuery, QB.new, QB.push, QB.push_bind, countPrefix,
      presentPredicates, numberFrom, joinWhere]; try decide)

lemma buildRanked_params (q : SearchQuery) (emb : Embedding) :
    (buildRankedQuery q emb).params =
      SqlParam.vec emb :: filterParams q.filters ++
        [SqlParam.vec emb, SqlParam.int (q.limit.getD 10), SqlParam.int (q.offset.getD 0)] := by
  rcases q with ⟨qs, lim, off, filters⟩
  rcases filters with _ | ⟨pk, kd, tg⟩
  · simp [buildRankedQuery, QB.new, QB.push, QB.push_bind, filterParams]
  rcases pk with _ | pk <;> rcases kd with _ | kd <;>
    rcases tg with _ | ⟨_ | ex, anyv, valsv⟩ <;>
    simp [buildRankedQuery, QB.new, QB.push, QB.push_bind, filterParams]

lemma buildCount_params (f : Option SearchFilters) :
    (buildCountQuery f).params = filterParams f := by
  rcases f with _ | ⟨pk, kd, tg⟩
  · simp [buildCountQuery, QB.new, QB.push, QB.push_bind, filterParams]
  rcases pk with _ | pk <;> rcases kd with _ | kd <;>
    rcases tg with _ | ⟨_ | ex, anyv, valsv⟩ <;>
    simp [buildCountQuery, QB.new, QB.push, QB.push_bind, filterParams]

lemma presentPredicates_presence (f : Option SearchFilters) :
    presentPredicates f = predsOfPresence (presenceOf f) := by
  rcases f with _ | ⟨pk, kd, tg⟩
  · rfl
  rcases pk with _ | pk <;> rcases kd with _ | kd <;>
    rcases tg with _ | ⟨_ | ex, anyv, valsv⟩ <;> rfl

lemma presentPredicates_length_le (f : Option SearchFilters) :
    (presentPredicates f).length ≤ 3 := by
  rcases f with _ | ⟨pk, kd, tg⟩
  · simp [presentPredicates]
  rcases pk with _ | pk <;> rcases kd with _ | kd <;>
    rcases tg with _ | ⟨_ | ex, anyv, valsv⟩ <;> simp [presentPredicates]

lemma noWHERE_rankedTail (n : Nat) (hn : n ≤ 3) :
    ¬ containsSub "WHERE" (rankedTail n) := by
  interval_cases n <;> decide

lemma filterParams_no_vec (f : Option SearchFilters) :
    ∀ p ∈ filterParams f, ∀ v, p ≠ SqlParam.vec v := by
  rcases f with _ | ⟨pk, kd, tg⟩
  · simp [filterParams]
  rcases pk with _ | pk <;> rcases kd with _ | kd <;>
    rcases tg with _ | ⟨_ | ex, anyv, valsv⟩ <;> simp [filterParams]

set_option maxRecDepth 40000 in
lemma noLIMIT_count_sql (f : Option SearchFilters) :
    ¬ containsSub "LIMIT" (buildCountQuery f).sql ∧
      ¬ containsSub "OFFSET" (buildCountQuery f).sql := by
  rcases f with _ | ⟨pk, kd, tg⟩
  · exact ⟨by decide, by decide⟩
  rcases pk with _ | pk <;> rcases kd with _ | kd <;>
    rcases tg with _ | ⟨_ | ex, anyv, valsv⟩ <;>
    (constructor <;> (simp [buildCountQuery, QB.new, QB.push, QB.push_bind]; decide))

lemma search_events_ok (o : SearchOracle) (q : SearchQuery) (r : SearchResult)
    (h : (search_events o q).1 = Except.ok r) :
    ∃ emb, o.embed q.query = Except.ok emb ∧
      o.fetchAll (buildRankedQuery q emb) = Except.ok r.results ∧
      o.fetchOne (buildCountQuery q.filters) = Except.ok r.total ∧
      r.limit = q.limit.getD 10 ∧ r.offset = q.offset.getD 0 := by
  unfold search_events at h
  split at h
  · simp at h
  next emb heq =>
    split at h
    · simp at h
    next res heq2 =>
      split at h
      · simp at h
      next total heq3 =>
        have hr : r = SearchResult.mk res total (q.limit.getD 10) (q.offset.getD 0) := by
          simpa using h.symm
        subst hr
        exact ⟨emb, heq, heq2, heq3, rfl, rfl⟩

lemma search_events_embed_error (o : SearchOracle) (q : SearchQuery) (e : String)
    (h : o.embed q.query = Except.error e) :
    search_events o q = (Except.error e, [SearchOp.embedCall q.query]) := by
  unfold search_events
  rw [h]

set_option maxRecDepth 40000 in
/-- **C1.** For every subset of the three optional filters (pubkey, kind,
tags-exact), the ranked-results query built by `search_events` emits the
present predicates in the fixed order pubkey, kind, tags-exact (that is what
`presentPredicates` lists); the first predicate emitted is preceded by `WHERE`
and every later one by `AND` (that is what `joinWhere` does); an omitted
filter contributes no fragment; and since neither the fixed prefix nor the
ORDER BY / LIMIT / OFFSET tail contains the token `WHERE`, a request whose
filter set contributes no predicate produces SQL with no `WHERE` at all. -/
theorem ranked_query_where_composition (q : SearchQuery) (emb : Embedding) :
    (buildRankedQuery q emb).sql =
      rankedPrefix ++ joinWhere (numberFrom 2 (presentPredicates q.filters)) ++
        rankedTail (presentPredicates q.filters).length ∧
    ¬ containsSub "WHERE" rankedPrefix ∧
    ¬ containsSub "WHERE" (rankedTail (presentPredicates q.filters).length) ∧
    (presentPredicates q.filters = [] →
      ¬ containsSub "WHERE" (buildRankedQuery q emb).sql) := by
  refine ⟨buildRanked_sql q emb, by decide,
    noWHERE_rankedTail _ (presentPredicates_length_le _), ?_⟩
  intro h
  rw [buildRanked_sql q emb, h]
  decide

set_option maxRecDepth 40000 in
/-- Witness for C1: a concrete request with no filters yields SQL containing
no `WHERE`. -/
theorem ranked_query_where_composition_witness :
    ¬ containsSub "WHERE" (buildRankedQuery (SearchQuery.mk "hello" none none none) [1, 2]).sql :=
  (ranked_query_where_composition (SearchQuery.mk "hello" none none none) [1, 2]).2.2.2 rfl

/-- **C2.** The count query uses the identical WHERE construction (same fixed
predicate order via `presentPredicates`, same bound values via
`filterParams`) as the ranked query, carries no vector parameter and no
`LIMIT`/`OFFSET` text, and consequently the `total` of a successful search is
invariant under changes to `limit` and `offset` alone. -/
theorem count_query_shape_total_invariant (f : Option SearchFilters) :
    (buildCountQuery f).sql = countPrefix ++ joinWhere (numberFrom 1 (presentPredicates f)) ∧
    (buildCountQuery f).params = filterParams f ∧
    (∀ p ∈ (buildCountQuery f).params, ∀ v, p ≠ SqlParam.vec v) ∧
    ¬ containsSub "LIMIT" (buildCountQuery f).sql ∧
    ¬ containsSub "OFFSET" (buildCountQuery f).sql ∧
    (∀ (emb : Embedding) (qs : String) (l off : Option Int),
      (buildRankedQuery (SearchQuery.mk qs l off f) emb).params =
        SqlParam.vec emb :: (buildCountQuery f).params ++
          [SqlParam.vec emb, SqlParam.int (l.getD 10), SqlParam.int (off.getD 0)]) ∧
    (∀ (o : SearchOracle) (qs : String) (l₁ o₁ l₂ o₂ : Option Int) (r₁ r₂ : SearchResult),
      (search_events o (SearchQuery.mk qs l₁ o₁ f)).1 = Except.ok r₁ →
      (search_events o (SearchQuery.mk qs l₂ o₂ f)).1 = Except.ok r₂ →
      r₁.total = r₂.total) := by
  refine ⟨buildCount_sql f, buildCount_params f, ?_, (noLIMIT_count_sql f).1,
    (noLIMIT_count_sql f).2, ?_, ?_⟩
  · rw [buildCount_params]
    exact filterParams_no_vec f
  · intro emb qs l off
    rw [buildCount_params]
    exact buildRanked_params (SearchQuery.mk qs l off f) emb
  · intro o qs l₁ o₁ l₂ o₂ r₁ r₂ h₁ h₂
    obtain ⟨emb₁, he₁, -, ht₁, -, -⟩ := search_events_ok o _ r₁ h₁
    obtain ⟨emb₂, he₂, -, ht₂, -, -⟩ := search_events_ok o _ r₂ h₂
    rw [he₁] at he₂
    cases he₂
    rw [ht₁] at ht₂
    exact Except.ok.inj ht₂

/-- Witness for C2: two concrete requests that differ only in limit/offset,
answered by a concrete oracle, report the same total. -/
theorem count_query_shape_total_invariant_witness :
    (SearchResult.mk [] 7 5 0).total = (SearchResult.mk [] 7 2 3).total :=
  (count_query_shape_total_invariant none).2.2.2.2.2.2
    ⟨fun _ => Except.ok [1], fun _ => Except.ok [], fun _ => Except.ok 7⟩
    "hi" (some 5) (some 0) (some 2) (some 3) (SearchResult.mk [] 7 5 0)
    (SearchResult.mk [] 7 2 3) rfl rfl

/-- **C9.** The generated SQL text of both queries is a function of which
filters are present only: requests with the same presence pattern produce
identical SQL text whatever the user-supplied values are, and every
user-supplied value (query vector, pubkey, kind, tag document, limit,
offset) travels in the bound-parameter list, never in the SQL text. -/
theorem sql_text_depends_on_presence_only (q₁ q₂ : SearchQuery) (e₁ e₂ : Embedding)
    (h : presenceOf q₁.filters = presenceOf q₂.filters) :
    (buildRankedQuery q₁ e₁).sql = (buildRankedQuery q₂ e₂).sql ∧
    (buildCountQuery q₁.filters).sql = (buildCountQuery q₂.filters).sql ∧
    (buildRankedQuery q₁ e₁).params =
      SqlParam.vec e₁ :: filterParams q₁.filters ++
        [SqlParam.vec e₁, SqlParam.int (q₁.limit.getD 10), SqlParam.int (q₁.offset.getD 0)] ∧
    (buildCountQuery q₁.filters).params = filterParams q₁.filters := by
  have hp : presentPredicates q₁.filters = presentPredicates q₂.filters := by
    rw [presentPredicates_presence, presentPredicates_presence, h]
  exact ⟨by rw [buildRanked_sql, buildRanked_sql, hp],
    by rw [buildCount_sql, buildCount_sql, hp],
    buildRanked_params q₁ e₁, buildCount_params q₁.filters⟩

/-- Witness for C9: two concrete requests with identical filter presence but
different pubkey values, vectors, limits and offsets produce identical
ranked-query SQL text. -/
theorem sql_text_depends_on_presence_only_witness :
    (buildRankedQuery
        (SearchQuery.mk "a" (some 1) (some 2) (some (SearchFilters.mk (some "pk1") none none)))
        [1]).sql =
      (buildRankedQuery
        (SearchQuery.mk "b" none none (some (SearchFilters.mk (some "pk2") none none)))
        [2, 3]).sql :=
  (sql_text_depends_on_presence_only _ _ [1] [2, 3] rfl).1

/-- **C5.** If the embedding call fails, `search_events` returns that error
having performed no store query at all (its call trace is the single
embedding call); and a `SearchResult` is returned only when the ranked query
and the count query both succeed, with the result assembled from exactly
their answers — there are no partial results. -/
theorem search_no_partial_results (o : SearchOracle) (q : SearchQuery) :
    (∀ e, o.embed q.query = Except.error e →
      search_events o q = (Except.error e, [SearchOp.embedCall q.query])) ∧
    (∀ r, (search_events o q).1 = Except.ok r →
      ∃ emb, o.embed q.query = Except.ok emb ∧
        o.fetchAll (buildRankedQuery q emb) = Except.ok r.results ∧
        o.fetchOne (buildCountQuery q.filters) = Except.ok r.total) := by
  constructor
  · intro e he
    exact search_events_embed_error o q e he
  · intro r hr
    obtain ⟨emb, he, ha, ht, -, -⟩ := search_events_ok o q r hr
    exact ⟨emb, he, ha, ht⟩

/-- Witness for C5: a concrete oracle whose embedding call fails makes the
whole search fail with that error and no store query in the trace. -/
theorem search_no_partial_results_witness :
    search_events
        ⟨fun _ => Except.error "boom", fun _ => Except.ok [], fun _ => Except.ok 0⟩
        (SearchQuery.mk "hi" none none none) =
      (Except.error "boom", [SearchOp.embedCall "hi"]) :=
  (search_no_partial_results
    ⟨fun _ => Except.error "boom", fun _ => Except.ok [], fun _ => Except.ok 0⟩
    (SearchQuery.mk "hi" none none none)).1 "boom" rfl

/-- `PluginInput` from `src/main.rs` (the envelope of plugin ingestion mode). -/
structure PluginInput where
  msg_type : String
  event : NostrEvent
  receivedAt : Int
  sourceType : String
  sourceInfo : String
deriving DecidableEq, Repr

/-- A row of the `nostr_search.events` table as written by the ingestion
insert. -/
structure StoredRow where
  id : String
  pubkey : String
  created_at : Int
  kind : Int
  content : String
  tags : JsonValue
  embedding : Embedding
deriving DecidableEq, Repr

/-- The event store as the ingestion pipeline sees it: the stored rows plus
fault-injection switches standing for the ways its two queries can fail. -/
structure Db where
  rows : List StoredRow
  failExists : Bool
  failInsert : Bool
deriving DecidableEq, Repr

/-- The `SELECT EXISTS(... WHERE id = $1)` query of `process_stdin_events`. -/
def Db.existsCheck (db : Db) (id : String) : Except String Bool :=
  if db.failExists then Except.error "exists query failed"
  else Except.ok (db.rows.any (fun r => r.id == id))

/-- The `INSERT INTO nostr_search.events ...` of `process_stdin_events`; the
store's primary-key uniqueness constraint makes a duplicate insert fail. -/
def Db.insertEvent (db : Db) (event : NostrEvent) (embedding : Embedding) : Except String Db :=
  if db.failInsert then Except.error "insert failed"
  else if db.rows.any (fun r => r.id == event.id) then
    Except.error "duplicate key value violates unique constraint"
  else
    Except.ok ⟨db.rows ++
      [⟨event.id, event.pubkey, event.created_at, event.kind, event.content, event.tags,
        embedding⟩], db.failExists, db.failInsert⟩

/-- One action observable outside the ingestion loop, in emission order. -/
inductive IngestAction where
  | ackOut (id : String)
  | stdoutMsg (s : String)
  | stderrMsg (s : String)
  | existsQuery (id : String)
  | embedCall (content : String)
  | insertRow (id : String)
deriving DecidableEq, Repr

/-- Outcome of running (part of) the ingestion loop: resulting store, emitted
actions in order, and the error that aborted the loop, if one did. -/
structure StepResult where
  db : Db
  trace : List IngestAction
  aborted : Option String
deriving DecidableEq, Repr

/-- The per-event body of `process_stdin_events` (`src/main.rs` lines
407–440), shared by both input modes: the existence check, whose failure the
source propagates with `?` (aborting the whole loop); then, if the id is
absent and `kind == 1`, the embedding call and the insert, whose failures are
logged to stderr while processing continues; in every other case the skip
path, which in direct mode prints the "already exists" message. -/
def processEvent (db : Db) (embed : String → Except String Embedding) (direct : Bool)
    (event : NostrEvent) : StepResult :=
  match db.existsCheck event.id with
  | .error e => ⟨db, [IngestAction.existsQuery event.id], some e⟩
  | .ok ex =>
    if !ex && event.kind == 1 then
      match embed event.content with
      | .ok embedding =>
        match db.insertEvent event embedding with
        | .error e =>
          ⟨db, [IngestAction.existsQuery event.id, IngestAction.embedCall event.content,
            IngestAction.insertRow event.id,
            IngestAction.stderrMsg ("Failed to insert event " ++ event.id ++ ": " ++ e)], none⟩
        | .ok db2 =>
          ⟨db2, [IngestAction.existsQuery event.id, IngestAction.embedCall event.content,
            IngestAction.insertRow event.id] ++
            (if direct then [IngestAction.stdoutMsg ("Successfully added event " ++ event.id)]
             else []), none⟩
      | .error _ =>
        ⟨db, [IngestAction.existsQuery event.id, IngestAction.embedCall event.content,
          IngestAction.stderrMsg ("Failed to generate embedding for event " ++ event.id)], none⟩
    else
      ⟨db, [IngestAction.existsQuery event.id] ++
        (if direct then
          [IngestAction.stdoutMsg ("Event " ++ event.id ++ " already exists, skipping")]
         else []), none⟩

/-- One line of `process_stdin_events`: parse according to the mode (a failed
parse is logged to stderr and the line skipped); in plugin mode a successful
parse immediately writes the `{ id, action: "accept" }` acknowledgment to
stdout before any store work. Parsing is external (serde), so the parse
functions are inputs to the model. -/
def processLine (db : Db) (embed : String → Except String Embedding) (direct : Bool)
    (parseDirect : String → Option NostrEvent) (parsePlugin : String → Option PluginInput)
    (line : String) : StepResult :=
  if direct then
    match parseDirect line with
    | none => ⟨db, [IngestAction.stderrMsg "Error parsing NostrEvent"], none⟩
    | some event => processEvent db embed direct event
  else
    match parsePlugin line with
    | none => ⟨db, [IngestAction.stderrMsg "Error parsing PluginInput"], none⟩
    | some input =>
      ⟨(processEvent db embed direct input.event).db,
        IngestAction.ackOut input.event.id :: (processEvent db embed direct input.event).trace,
        (processEvent db embed direct input.event).aborted⟩

/-- The outer loop of `process_stdin_events` over the stdin lines: strictly
sequential, stopping early exactly when a per-line step propagates an error
through `?`, and otherwise concatenating the per-line traces. -/
def process_stdin_events (db : Db) (embed : String → Except String Embedding) (direct : Bool)
    (parseDirect : String → Option NostrEvent) (parsePlugin : String → Option PluginInput) :
    List String → StepResult
  | [] => ⟨db, [], none⟩
  | line :: rest =>
    match (processLine db embed direct parseDirect parsePlugin line).aborted with
    | some e =>
      ⟨(processLine db embed direct parseDirect parsePlugin line).db,
        (processLine db embed direct parseDirect parsePlugin line).trace, some e⟩
    | none =>
      ⟨(process_stdin_events (processLine db embed direct parseDirect parsePlugin line).db
          embed direct parseDirect parsePlugin rest).db,
        (processLine db embed direct parseDirect parsePlugin line).trace ++
          (process_stdin_events (processLine db embed direct parseDirect parsePlugin line).db
            embed direct parseDirect parsePlugin rest).trace,
        (process_stdin_events (processLine db embed direct parseDirect parsePlugin line).db
          embed direct parseDirect parsePlugin rest).aborted⟩

/-- The event a line carries, if it parses in the given mode. -/
def parsedEvent (direct : Bool) (parseDirect : String → Option NostrEvent)
    (parsePlugin : String → Option PluginInput) (line : String) : Option NostrEvent :=
  if direct then parseDirect line else (parsePlugin line).map (fun i => i.event)

/-- The Cloudflare embedding result (`EmbeddingResult` in
`src/discovery/embedding.rs`): `response` is an array of embedding vectors. -/
structure CloudflareEmbeddingResult where
  response : List Embedding
deriving DecidableEq, Repr

/-- `EmbeddingResponse` from `src/discovery/embedding.rs`. -/
structure CloudflareEmbeddingResponse where
  result : CloudflareEmbeddingResult
  success : Bool
  errors : List String
  messages : List String
deriving DecidableEq, Repr

/-- What the provider interaction yields before the client's own code runs:
`send()` may fail (network failure), the body may fail to decode as
`EmbeddingResponse` (which is also how a non-success HTTP status surfaces,
since reqwest does not fail on status and an error body does not decode), or
a decoded response arrives. -/
inductive HttpResponse where
  | sendError (e : String)
  | decodeError (e : String)
  | decoded (r : CloudflareEmbeddingResponse)
deriving DecidableEq, Repr

/-- A Rust computation observed from outside: it returns `Ok`, returns `Err`
(the `?` operator), or panics. -/
inductive RustResult (α : Type) where
  | ok (a : α)
  | err (e : String)
  | panicked (msg : String)
deriving DecidableEq, Repr

/-- `cloudflare::generate_embedding` from `src/discovery/embedding.rs` lines
32–53: `?` propagates the send and decode failures as returned errors; the
final line evaluates `response.result.response[0]`, and in Rust indexing an
empty `Vec` at 0 panics. -/
def generate_embedding (http : HttpResponse) : RustResult Embedding :=
  match http with
  | .sendError e => RustResult.err e
  | .decodeError e => RustResult.err e
  | .decoded resp =>
    match resp.result.response with
    | [] => RustResult.panicked "index out of bounds: the len is 0 but the index is 0"
    | v :: _ => RustResult.ok v

lemma processEvent_skip (db : Db) (embed : String → Except String Embedding) (direct : Bool)
    (event : NostrEvent) (hfe : db.failExists = false)
    (hskip : (!(db.rows.any (fun r => r.id == event.id)) && event.kind == 1) = false) :
    processEvent db embed direct event =
      ⟨db, [IngestAction.existsQuery event.id] ++
        (if direct then
          [IngestAction.stdoutMsg ("Event " ++ event.id ++ " already exists, skipping")]
         else []), none⟩ := by
  simp [processEvent, Db.existsCheck, hfe, hskip]

lemma processEvent_no_ack (db : Db) (embed : String → Except String Embedding) (direct : Bool)
    (event : NostrEvent) :
    ∀ a ∈ (processEvent db embed direct event).trace, ∀ i, a ≠ IngestAction.ackOut i := by
  unfold processEvent
  rcases hec : db.existsCheck event.id with e | ex
  · simp
  cases hb : (!ex && event.kind == 1)
  · cases direct <;> simp [hb]
  · rcases hem : embed event.content with e | emb
    · simp [hb, hem]
    rcases hins : db.insertEvent event emb with e | db2 <;> cases direct <;>
      simp [hb, hem, hins]

lemma processEvent_rows (db : Db) (embed : String → Except String Embedding) (direct : Bool)
    (event : NostrEvent) :
    ∀ r ∈ (processEvent db embed direct event).db.rows, r ∈ db.rows ∨ r.kind = 1 := by
  unfold processEvent
  rcases hec : db.existsCheck event.id with e | ex
  · simp
    exact fun r hr => Or.inl hr
  cases hb : (!ex && event.kind == 1)
  · cases direct <;> simp [hb] <;> exact fun r hr => Or.inl hr
  · have hk : event.kind = 1 := by
      have h2 := (Bool.and_eq_true _ _).mp hb
      simpa using h2.2
    rcases hem : embed event.content with e | emb
    · simp [hb, hem]
      exact fun r hr => Or.inl hr
    rcases hins : db.insertEvent event emb with e | db2
    · simp [hb, hem, hins]
      exact fun r hr => Or.inl hr
    · simp [hb, hem, hins]
      intro r hr
      unfold Db.insertEvent at hins
      cases hfi : db.failInsert <;> rw [hfi] at hins <;>
        simp only [Bool.false_eq_true, if_false, reduceIte] at hins
      · cases hdup : db.rows.any (fun r => r.id == event.id) <;> rw [hdup] at hins <;>
          simp only [Bool.false_eq_true, if_false, reduceIte] at hins
        · obtain rfl := Except.ok.inj hins
          simp only [List.mem_append, List.mem_singleton] at hr
          rcases hr with h | h
          · exact Or.inl h
          · right
            rw [h, hk]
        · exact absurd hins (by simp)
      · exact absurd hins (by simp)

lemma processLine_rows (db : Db) (embed : String → Except String Embedding) (direct : Bool)
    (pD : String → Option NostrEvent) (pP : String → Option PluginInput) (line : String) :
    ∀ r ∈ (processLine db embed direct pD pP line).db.rows, r ∈ db.rows ∨ r.kind = 1 := by
  unfold processLine
  cases direct
  · rcases hp : pP line with _ | input
    · simp [hp]
      exact fun r hr => Or.inl hr
    · simp [hp]
      exact processEvent_rows db embed false input.event
  · rcases hp : pD line with _ | ev
    · simp [hp]
      exact fun r hr => Or.inl hr
    · simp [hp]
      exact processEvent_rows db embed true ev

lemma loop_cons_none (db : Db) (embed : String → Except String Embedding) (direct : Bool)
    (pD : String → Option NostrEvent) (pP : String → Option PluginInput) (line : String)
    (rest : List String)
    (h : (processLine db embed direct pD pP line).aborted = none) :
    process_stdin_events db embed direct pD pP (line :: rest) =
      ⟨(process_stdin_events (processLine db embed direct pD pP line).db embed direct pD pP
          rest).db,
        (processLine db embed direct pD pP line).trace ++
          (process_stdin_events (processLine db embed direct pD pP line).db embed direct pD pP
            rest).trace,
        (process_stdin_events (processLine db embed direct pD pP line).db embed direct pD pP
          rest).aborted⟩ := by
  conv_lhs => rw [process_stdin_events]
  rw [h]

lemma loop_cons_some (db : Db) (embed : String → Except String Embedding) (direct : Bool)
    (pD : String → Option NostrEvent) (pP : String → Option PluginInput) (line : String)
    (rest : List String) (e : String)
    (h : (processLine db embed direct pD pP line).aborted = some e) :
    process_stdin_events db embed direct pD pP (line :: rest) =
      ⟨(processLine db embed direct pD pP line).db,
        (processLine db embed direct pD pP line).trace, some e⟩ := by
  conv_lhs => rw [process_stdin_events]
  rw [h]

lemma loop_rows_kind (embed : String → Except String Embedding) (direct : Bool)
    (pD : String → Option NostrEvent) (pP : String → Option PluginInput) :
    ∀ (lines : List String) (db : Db),
      ∀ r ∈ (process_stdin_events db embed direct pD pP lines).db.rows,
        r ∈ db.rows ∨ r.kind = 1 := by
  intro lines
  induction lines with
  | nil =>
    intro db
    simp [process_stdin_events]
    exact fun r hr => Or.inl hr
  | cons line rest ih =>
    intro db r hr
    rcases hab : (processLine db embed direct pD pP line).aborted with _ | e
    · rw [loop_cons_none db embed direct pD pP line rest hab] at hr
      rcases ih ((processLine db embed direct pD pP line).db) r hr with h | h
      · exact processLine_rows db embed direct pD pP line r h
      · exact Or.inr h
    · rw [loop_cons_some db embed direct pD pP line rest e hab] at hr
      exact processLine_rows db embed direct pD pP line r hr

lemma replay_noop (embed : String → Except String Embedding) (direct : Bool)
    (pD : String → Option NostrEvent) (pP : String → Option PluginInput) :
    ∀ (lines : List String) (db : Db), db.failExists = false →
      (∀ l ∈ lines, ∀ ev, parsedEvent direct pD pP l = some ev →
        db.rows.any (fun r => r.id == ev.id) = true) →
      (process_stdin_events db embed direct pD pP lines).db = db ∧
      (process_stdin_events db embed direct pD pP lines).aborted = none := by
  intro lines
  induction lines with
  | nil =>
    intro db hfe hall
    simp [process_stdin_events]
  | cons line rest ih =>
    intro db hfe hall
    have hline : (processLine db embed direct pD pP line).db = db ∧
        (processLine db embed direct pD pP line).aborted = none := by
      unfold processLine
      cases direct
      · rcases hp : pP line with _ | input
        · simp [hp]
        · have hmem := hall line (by simp) input.event (by simp [parsedEvent, hp])
          have hskip := processEvent_skip db embed false input.event hfe (by simp [hmem])
          simp [hp, hskip]
      · rcases hp : pD line with _ | ev
        · simp [hp]
        · have hmem := hall line (by simp) ev (by simp [parsedEvent, hp])
          have hskip := processEvent_skip db embed true ev hfe (by simp [hmem])
          simp [hp, hskip]
    rw [loop_cons_none db embed direct pD pP line rest hline.2, hline.1]
    exact ih db hfe (fun l hl => hall l (List.mem_cons_of_mem _ hl))

/-- **C3.** An event whose `id` is already stored is a no-op for ingestion:
the store is unchanged, no embedding call and no insert appears in the trace
(only the existence check and, in direct mode, the skip message); and
replaying a whole stream all of whose parsed events are already stored leaves
the stored state unchanged. -/
theorem ingest_duplicate_id_noop (db : Db) (embed : String → Except String Embedding)
    (direct : Bool) (event : NostrEvent)
    (hfe : db.failExists = false)
    (hmem : db.rows.any (fun r => r.id == event.id) = true) :
    processEvent db embed direct event =
      ⟨db, [IngestAction.existsQuery event.id] ++
        (if direct then
          [IngestAction.stdoutMsg ("Event " ++ event.id ++ " already exists, skipping")]
         else []), none⟩ ∧
    (∀ a ∈ (processEvent db embed direct event).trace,
      (∀ c, a ≠ IngestAction.embedCall c) ∧ (∀ i, a ≠ IngestAction.insertRow i)) ∧
    (∀ (pD : String → Option NostrEvent) (pP : String → Option PluginInput)
        (lines : List String),
      (∀ l ∈ lines, ∀ ev, parsedEvent direct pD pP l = some ev →
        db.rows.any (fun r => r.id == ev.id) = true) →
      (process_stdin_events db embed direct pD pP lines).db = db) := by
  have hskip := processEvent_skip db embed direct event hfe (by simp [hmem])
  refine ⟨hskip, ?_, ?_⟩
  · rw [hskip]
    cases direct <;> simp
  · intro pD pP lines hall
    exact (replay_noop embed direct pD pP lines db hfe hall).1

/-- Witness for C3: re-ingesting a concretely stored event changes nothing. -/
theorem ingest_duplicate_id_noop_witness :
    processEvent
        (Db.mk [StoredRow.mk "e1" "p1" 0 1 "hello" (JsonValue.mk "[]") [1]] false false)
        (fun _ => Except.ok [1]) true (NostrEvent.mk "e1" "p1" 0 1 "hello" (JsonValue.mk "[]")) =
      ⟨Db.mk [StoredRow.mk "e1" "p1" 0 1 "hello" (JsonValue.mk "[]") [1]] false false,
        [IngestAction.existsQuery "e1",
          IngestAction.stdoutMsg "Event e1 already exists, skipping"], none⟩ := by
  have h := (ingest_duplicate_id_noop
    (Db.mk [StoredRow.mk "e1" "p1" 0 1 "hello" (JsonValue.mk "[]") [1]] false false)
    (fun _ => Except.ok [1]) true (NostrEvent.mk "e1" "p1" 0 1 "hello" (JsonValue.mk "[]"))
    rfl (by decide)).1
  simpa using h

/-- **C4.** In plugin (enveloped) ingestion mode a successfully parsed line
emits exactly one accept acknowledgment, at the very head of the line's
trace — before the existence check, the embedding call and the insert — and
the rest of the line's trace contains no acknowledgment; a line that fails to
parse emits no acknowledgment (only a stderr log) and the loop continues with
the remaining lines. -/
theorem plugin_ack_before_store (db : Db) (embed : String → Except String Embedding)
    (pD : String → Option NostrEvent) (pP : String → Option PluginInput) (line : String) :
    (∀ input, pP line = some input →
      (processLine db embed false pD pP line).trace =
        IngestAction.ackOut input.event.id :: (processEvent db embed false input.event).trace ∧
      (∀ a ∈ (processEvent db embed false input.event).trace,
        ∀ i, a ≠ IngestAction.ackOut i)) ∧
    (pP line = none →
      processLine db embed false pD pP line =
        ⟨db, [IngestAction.stderrMsg "Error parsing PluginInput"], none⟩ ∧
      (∀ rest, process_stdin_events db embed false pD pP (line :: rest) =
        ⟨(process_stdin_events db embed false pD pP rest).db,
          IngestAction.stderrMsg "Error parsing PluginInput" ::
            (process_stdin_events db embed false pD pP rest).trace,
          (process_stdin_events db embed false pD pP rest).aborted⟩)) := by
  constructor
  · intro input hp
    constructor
    · simp [processLine, hp]
    · exact processEvent_no_ack db embed false input.event
  · intro hp
    have hl : processLine db embed false pD pP line =
        ⟨db, [IngestAction.stderrMsg "Error parsing PluginInput"], none⟩ := by
      simp [processLine, hp]
    refine ⟨hl, fun rest => ?_⟩
    rw [loop_cons_none db embed false pD pP line rest (by rw [hl])]
    rw [hl]
    simp

/-- Witness for C4: a concrete parse failure and a concrete parse success. -/
theorem plugin_ack_before_store_witness :
    (processLine (Db.mk [] false false) (fun _ => Except.ok [1]) false (fun _ => none)
        (fun l => if l == "good" then
          some (PluginInput.mk "event"
            (NostrEvent.mk "e1" "p1" 0 1 "hi" (JsonValue.mk "[]")) 0 "s" "i")
         else none) "good").trace =
      IngestAction.ackOut "e1" ::
        (processEvent (Db.mk [] false false) (fun _ => Except.ok [1]) false
          (NostrEvent.mk "e1" "p1" 0 1 "hi" (JsonValue.mk "[]"))).trace ∧
    processLine (Db.mk [] false false) (fun _ => Except.ok [1]) false (fun _ => none)
        (fun l => if l == "good" then
          some (PluginInput.mk "event"
            (NostrEvent.mk "e1" "p1" 0 1 "hi" (JsonValue.mk "[]")) 0 "s" "i")
         else none) "bad" =
      ⟨Db.mk [] false false, [IngestAction.stderrMsg "Error parsing PluginInput"], none⟩ :=
  ⟨((plugin_ack_before_store (Db.mk [] false false) (fun _ => Except.ok [1]) (fun _ => none)
      (fun l => if l == "good" then
        some (PluginInput.mk "event"
          (NostrEvent.mk "e1" "p1" 0 1 "hi" (JsonValue.mk "[]")) 0 "s" "i")
       else none) "good").1
      (PluginInput.mk "event" (NostrEvent.mk "e1" "p1" 0 1 "hi" (JsonValue.mk "[]")) 0 "s" "i")
      (by decide)).1,
    ((plugin_ack_before_store (Db.mk [] false false) (fun _ => Except.ok [1]) (fun _ => none)
      (fun l => if l == "good" then
        some (PluginInput.mk "event"
          (NostrEvent.mk "e1" "p1" 0 1 "hi" (JsonValue.mk "[]")) 0 "s" "i")
       else none) "bad").2 (by decide)).1⟩

/-- Counterexample to **C7**: the claim says a failed store query never aborts
the stream, but the existence-check query is propagated with `?` in
`src/main.rs` (line 413), so when it fails the loop stops — here the second
line is never processed and the run ends with the error. -/
theorem store_query_failure_aborts_stream :
    process_stdin_events (Db.mk [] true false) (fun _ => Except.ok [1]) true
        (fun l => if l == "l1" then
            some (NostrEvent.mk "e1" "p1" 0 1 "hi" (JsonValue.mk "[]"))
          else if l == "l2" then
            some (NostrEvent.mk "e2" "p2" 0 1 "yo" (JsonValue.mk "[]"))
          else none)
        (fun _ => none) ["l1", "l2"] =
      ⟨Db.mk [] true false, [IngestAction.existsQuery "e1"], some "exists query failed"⟩ := by
  decide

/-- **C7 (amended).** Parse failures, embedding failures and insert failures
are logged and the loop continues with the next line; but a failure of the
existence-check store query is propagated by `?` and aborts the stream, the
remaining lines unprocessed. -/
theorem ingest_error_handling_amended (db : Db) (embed : String → Except String Embedding)
    (direct : Bool) (pD : String → Option NostrEvent) (pP : String → Option PluginInput) :
    (∀ line, parsedEvent direct pD pP line = none →
      (processLine db embed direct pD pP line).db = db ∧
      (processLine db embed direct pD pP line).aborted = none) ∧
    (∀ event e, db.failExists = false →
      db.rows.any (fun r => r.id == event.id) = false → event.kind = 1 →
      embed event.content = Except.error e →
      processEvent db embed direct event =
        ⟨db, [IngestAction.existsQuery event.id, IngestAction.embedCall event.content,
          IngestAction.stderrMsg ("Failed to generate embedding for event " ++ event.id)],
          none⟩) ∧
    (∀ event emb e, db.failExists = false →
      db.rows.any (fun r => r.id == event.id) = false → event.kind = 1 →
      embed event.content = Except.ok emb →
      db.insertEvent event emb = Except.error e →
      processEvent db embed direct event =
        ⟨db, [IngestAction.existsQuery event.id, IngestAction.embedCall event.content,
          IngestAction.insertRow event.id,
          IngestAction.stderrMsg ("Failed to insert event " ++ event.id ++ ": " ++ e)],
          none⟩) ∧
    (∀ event e, db.existsCheck event.id = Except.error e →
      processEvent db embed direct event =
        ⟨db, [IngestAction.existsQuery event.id], some e⟩) ∧
    (∀ line rest e, (processLine db embed direct pD pP line).aborted = some e →
      process_stdin_events db embed direct pD pP (line :: rest) =
        ⟨(processLine db embed direct pD pP line).db,
          (processLine db embed direct pD pP line).trace, some e⟩) ∧
    (∀ line rest, (processLine db embed direct pD pP line).aborted = none →
      process_stdin_events db embed direct pD pP (line :: rest) =
        ⟨(process_stdin_events (processLine db embed direct pD pP line).db embed direct pD pP
            rest).db,
          (processLine db embed direct pD pP line).trace ++
            (process_stdin_events (processLine db embed direct pD pP line).db embed direct pD
              pP rest).trace,
          (process_stdin_events (processLine db embed direct pD pP line).db embed direct pD pP
            rest).aborted⟩) := by
  refine ⟨?_, ?_, ?_, ?_, ?_, ?_⟩
  · intro line h
    cases hd : direct <;> rw [hd] at h <;> simp [parsedEvent, hd] at h <;>
      simp [processLine, h]
  · intro event e hfe habs hk hem
    simp [processEvent, Db.existsCheck, hfe, habs, hk, hem]
  · intro event emb e hfe habs hk hem hins
    simp [processEvent, Db.existsCheck, hfe, habs, hk, hem, hins]
  · intro event e hec
    simp [processEvent, hec]
  · intro line rest e h
    exact loop_cons_some db embed direct pD pP line rest e h
  · intro line rest h
    exact loop_cons_none db embed direct pD pP line rest h

/-- Witness for the amended C7: a concrete embedding failure is logged and
does not abort. -/
theorem ingest_error_handling_amended_witness :
    processEvent (Db.mk [] false false) (fun _ => Except.error "net down") true
        (NostrEvent.mk "e1" "p1" 0 1 "hi" (JsonValue.mk "[]")) =
      ⟨Db.mk [] false false, [IngestAction.existsQuery "e1", IngestAction.embedCall "hi",
        IngestAction.stderrMsg "Failed to generate embedding for event e1"], none⟩ := by
  have h := (ingest_error_handling_amended (Db.mk [] false false)
    (fun _ => Except.error "net down") true (fun _ => none) (fun _ => none)).2.1
    (NostrEvent.mk "e1" "p1" 0 1 "hi" (JsonValue.mk "[]")) "net down" rfl rfl rfl rfl
  simpa using h

/-- **C8.** An absent event with `kind != 1` is dropped: the store is
unchanged, the trace holds no embedding call and no insert; moreover no run
of the ingestion loop ever adds a row whose `kind` differs from 1, so such an
event is never stored (and hence never ranked by the similarity queries,
which read only stored rows). -/
theorem kind_filter_drops (db : Db) (embed : String → Except String Embedding) (direct : Bool)
    (event : NostrEvent)
    (hfe : db.failExists = false)
    (habs : db.rows.any (fun r => r.id == event.id) = false)
    (hk : event.kind ≠ 1) :
    processEvent db embed direct event =
      ⟨db, [IngestAction.existsQuery event.id] ++
        (if direct then
          [IngestAction.stdoutMsg ("Event " ++ event.id ++ " already exists, skipping")]
         else []), none⟩ ∧
    (∀ a ∈ (processEvent db embed direct event).trace,
      (∀ c, a ≠ IngestAction.embedCall c) ∧ (∀ i, a ≠ IngestAction.insertRow i)) ∧
    (∀ (pD : String → Option NostrEvent) (pP : String → Option PluginInput)
        (lines : List String),
      ∀ r ∈ (process_stdin_events db embed direct pD pP lines).db.rows,
        r ∈ db.rows ∨ r.kind = 1) := by
  have hskip := processEvent_skip db embed direct event hfe (by simp [habs, hk])
  refine ⟨hskip, ?_, ?_⟩
  · rw [hskip]
    cases direct <;> simp
  · intro pD pP lines
    exact loop_rows_kind embed direct pD pP lines db

/-- Witness for C8: a concrete absent kind-7 event leaves the empty store
empty and calls neither embedding nor insert. -/
theorem kind_filter_drops_witness :
    processEvent (Db.mk [] false false) (fun _ => Except.ok [1]) false
        (NostrEvent.mk "e7" "p" 0 7 "x" (JsonValue.mk "[]")) =
      ⟨Db.mk [] false false, [IngestAction.existsQuery "e7"], none⟩ := by
  have h := (kind_filter_drops (Db.mk [] false false) (fun _ => Except.ok [1]) false
    (NostrEvent.mk "e7" "p" 0 7 "x" (JsonValue.mk "[]")) rfl rfl (by decide)).1
  simpa using h

/-- **C10.** In direct mode every successfully parsed event that the
pipeline does not insert because its id already exists — or because it is
absent with `kind != 1` — gets the same stdout message "Event (id) already
exists, skipping"; in particular an absent non-kind-1 event is reported as
already existing although no row with its id is stored. -/
theorem direct_skip_message_for_noninserted (db : Db)
    (embed : String → Except String Embedding) (event : NostrEvent)
    (hfe : db.failExists = false)
    (h : db.rows.any (fun r => r.id == event.id) = true ∨
      (db.rows.any (fun r => r.id == event.id) = false ∧ event.kind ≠ 1)) :
    processEvent db embed true event =
      ⟨db, [IngestAction.existsQuery event.id,
        IngestAction.stdoutMsg ("Event " ++ event.id ++ " already exists, skipping")],
        none⟩ := by
  have hskip := processEvent_skip db embed true event hfe (by
    rcases h with h | ⟨h1, h2⟩
    · simp [h]
    · simp [h1, h2])
  simpa using hskip

/-- Witness for C10: an absent kind-7 event against an empty store still gets
the "already exists" message, with nothing stored. -/
theorem direct_skip_message_for_noninserted_witness :
    processEvent (Db.mk [] false false) (fun _ => Except.ok [1]) true
        (NostrEvent.mk "e9" "p" 0 7 "x" (JsonValue.mk "[]")) =
      ⟨Db.mk [] false false, [IngestAction.existsQuery "e9",
        IngestAction.stdoutMsg "Event e9 already exists, skipping"], none⟩ := by
  have h := direct_skip_message_for_noninserted (Db.mk [] false false) (fun _ => Except.ok [1])
    (NostrEvent.mk "e9" "p" 0 7 "x" (JsonValue.mk "[]")) rfl (Or.inr ⟨rfl, by decide⟩)
  simpa using h

/-- Counterexample to **C6**: a decoded provider response whose result array
is empty makes `cloudflare::generate_embedding` panic (the Rust indexing
`response.result.response[0]`) instead of returning an error. -/
theorem embedding_empty_array_panics :
    generate_embedding (HttpResponse.decoded
      (CloudflareEmbeddingResponse.mk (CloudflareEmbeddingResult.mk []) true [] [])) =
      RustResult.panicked "index out of bounds: the len is 0 but the index is 0" := rfl

/-- **C6 (amended).** Network failures and undecodable bodies (which is how
non-success HTTP statuses surface) are returned as errors, and a decoded
response with a non-empty result array returns its first vector; but a
decoded response with an empty result array panics instead of returning an
error. -/
theorem embedding_client_error_surface (http : HttpResponse) :
    (∀ e, http = HttpResponse.sendError e → generate_embedding http = RustResult.err e) ∧
    (∀ e, http = HttpResponse.decodeError e → generate_embedding http = RustResult.err e) ∧
    (∀ resp, http = HttpResponse.decoded resp →
      (resp.result.response = [] →
        generate_embedding http =
          RustResult.panicked "index out of bounds: the len is 0 but the index is 0") ∧
      (∀ v vs, resp.result.response = v :: vs →
        generate_embedding http = RustResult.ok v)) := by
  refine ⟨?_, ?_, ?_⟩
  · rintro e rfl
    rfl
  · rintro e rfl
    rfl
  · rintro resp rfl
    constructor
    · intro hresp
      simp [generate_embedding, hresp]
    · intro v vs hresp
      simp [generate_embedding, hresp]

/-- Witness for the amended C6: a concrete network failure is returned as an
error. -/
theorem embedding_client_error_surface_witness :
    generate_embedding (HttpResponse.sendError "connection refused") =
      RustResult.err "connection refused" :=
  (embedding_client_error_surface (HttpResponse.sendError "connection refused")).1
    "connection refused" rfl
